import Mathlib

/-!
Verification of the star-rating core of `rosu-pp-older` against its
natural-language specification.

The development shallowly embeds the Rust sources:
  * `src/osu_2021_january/osu_object.rs` — hit-object sampling (`OsuObject::new`,
    the slider vertex walk `compute_vertex`);
  * `src/osu_2015_april/stars.rs` — the 2015 orchestrator, `modify_od`,
    the mod multiplier match;
  * `src/osu_2021_july/mod.rs` — the 2021 orchestrator.

Modelling conventions: `f64`/`f32` scalar arithmetic is embedded exactly over
`ℚ` where the code only uses field operations, `ceil`, `min`/`max` and the
Rust `%` (truncated remainder); 2-D geometry (Euclidean norms arising from
`Pos2::length`/`normalize`) lives in `ℝ × ℝ` with `Real.sqrt`.  Division by
zero yields `0` in `ℚ`/`ℝ` whereas `f64` yields `NaN`/`inf`; every place where
this matters is either excluded by a hypothesis or called out explicitly
(the degenerate zero-length-slider counterexamples state that the divisor,
the span duration, is zero — the very fact at issue — rather than relying on
either convention).

Code of the repository that is not under `src/` (the `Skill` type, the curve
evaluator `crate::util::curve`, the 2021-july/2015-april `osu_object`
modules) is modelled from the spec where a claim needs it; each such
definition carries a doc comment starting `Modelled from the spec:`.
-/

namespace RosuOlder

/-- A 2-D position (`Pos2` in the source, `f32` coordinates). -/
abbrev Pos2 := ℝ × ℝ

/-- Euclidean length of a 2-D vector (`Pos2::length` in the source). -/
noncomputable def posLength (p : Pos2) : ℝ := Real.sqrt (p.1 ^ 2 + p.2 ^ 2)

/-- Truncation toward zero, the rounding used by Rust's `%` on floats. -/
def ratTrunc (q : ℚ) : ℤ := if 0 ≤ q then ⌊q⌋ else ⌈q⌉

/-- Rust's `%` (truncated remainder) on finite floats: `x - y * trunc (x / y)`. -/
def rustRem (x y : ℚ) : ℚ := x - y * (ratTrunc (x / y) : ℚ)

/-! ### Constants (from `osu_2015_april/stars.rs`, `osu_2021_july/mod.rs`,
`osu_2021_january/osu_object.rs`). All the float literals are exact in `ℚ`. -/

def OBJECT_RADIUS : ℚ := 64
def SECTION_LEN : ℚ := 400
def DIFFICULTY_MULTIPLIER : ℚ := 27 / 400
def NORMALIZED_RADIUS : ℚ := 52
def OD_MIN : ℚ := 159 / 2
def OD_MAX : ℚ := 39 / 2
def LEGACY_LAST_TICK_OFFSET : ℚ := 36
def BASE_SCORING_DISTANCE : ℚ := 100

/-! ### Data model

The map representation and the per-time timing/difficulty lookups are
external collaborators (spec §6); a slider therefore carries its resolved
timing context, and the curve built by `Curve::new` (in `crate::util::curve`,
not under `src/`) enters as the pair of values the sampling code consumes:
`curveDist` for `curve.dist()` and `curvePos` for `curve.position_at`. -/

/-- The resolved data of one slider hit object, as consumed by
`OsuObject::new` in `osu_2021_january/osu_object.rs`. -/
structure SliderData where
  repeats : ℕ
  beat_len : ℚ
  slider_vel : ℚ
  generate_ticks : Bool
  curveDist : ℚ
  curvePos : ℚ → Pos2

/-- Hit-object typing (`HitObjectKind`): circle, slider, spinner, or
mania hold.  Spinner and hold share one (duration-only) branch in the
source. -/
inductive HitKind where
  | circle
  | slider (d : SliderData)
  | spinner
  | hold

/-- One raw hit object. -/
structure HitObject where
  start_time : ℚ
  pos : Pos2
  kind : HitKind

/-- The map-level inputs consumed by the embedded code
(`rosu_pp::Beatmap` fields). -/
structure BeatmapModel where
  od : ℚ
  slider_mult : ℚ
  tick_rate : ℚ
  version : ℕ
  n_circles : ℕ
  n_spinners : ℕ
  hitObjects : List HitObject

/-- The mod-adjusted map attributes produced by the external
`map.attributes().mods(mods).build()` collaborator (spec §6). -/
structure MapAttributes where
  ar : ℚ
  od : ℚ
  cs : ℚ
  clock_rate : ℚ

/-- Output aggregate `OsuDifficultyAttributes` (identical struct in the 2015
and 2021 sources).  `Default` in Rust zeroes every field. -/
structure OsuDifficultyAttributes where
  aim_strain : ℝ := 0
  speed_strain : ℝ := 0
  ar : ℚ := 0
  od : ℚ := 0
  hp : ℚ := 0
  n_circles : ℕ := 0
  n_sliders : ℕ := 0
  n_spinners : ℕ := 0
  stars : ℝ := 0
  max_combo : ℕ := 0

/-- The per-object summary built by `OsuObject::new`. -/
structure OsuObject where
  time : ℚ
  pos : Pos2
  end_pos : Pos2
  travel_dist : Option ℝ

/-! ### Slider sampling arithmetic (`osu_2021_january/osu_object.rs`) -/

/-- Source: `scoring_dist = BASE_SCORING_DISTANCE * map.slider_mult * difficulty_point.slider_vel`. -/
def scoringDist (m : BeatmapModel) (d : SliderData) : ℚ :=
  BASE_SCORING_DISTANCE * m.slider_mult * d.slider_vel

/-- Source: `vel = scoring_dist / timing_point.beat_len`. -/
def sliderVel (m : BeatmapModel) (d : SliderData) : ℚ :=
  scoringDist m d / d.beat_len

/-- Raw `tick_dist` before clamping: `scoring_dist / map.tick_rate * tick_dist_mult`
when ticks are generated, `f64::INFINITY` (modelled as `none`) otherwise.
`tick_dist_mult` is `slider_vel.recip()` for map format versions below 8. -/
def tickDistRaw (m : BeatmapModel) (d : SliderData) : Option ℚ :=
  if d.generate_ticks then
    some (scoringDist m d / m.tick_rate * (if m.version < 8 then d.slider_vel⁻¹ else 1))
  else
    none

/-- Source: `span_count = (*repeats + 1) as f64`. -/
def spanCount (d : SliderData) : ℚ := (d.repeats : ℚ) + 1

/-- Source: `total_duration = end_time - start_time = span_count * curve.dist() / vel`. -/
def totalDuration (m : BeatmapModel) (d : SliderData) : ℚ :=
  spanCount d * d.curveDist / sliderVel m d

/-- Source: `span_duration = total_duration / span_count`. -/
def spanDuration (m : BeatmapModel) (d : SliderData) : ℚ :=
  totalDuration m d / spanCount d

/-- Source: `len = curve.dist().min(max_len)` with `max_len = 100_000.0`. -/
def sliderLen (d : SliderData) : ℚ := min d.curveDist 100000

/-- Clamped tick distance, `tick_dist = tick_dist.clamp(0.0, len)`; the infinite raw value clamps
to `len`. -/
def clampedTickDist (m : BeatmapModel) (d : SliderData) : ℚ :=
  match tickDistRaw m d with
  | none => sliderLen d
  | some r => min (max 0 r) (sliderLen d)

/-- Source: `min_dist_from_end = vel * 10.0`. -/
def minDistFromEnd (m : BeatmapModel) (d : SliderData) : ℚ :=
  sliderVel m d * 10

/-- The `while curr_dist < len - min_dist_from_end` loop collecting the
curve-distances of the first span's ticks, embedded with explicit fuel
(the loop advances by `step` each iteration; the fuel passed at the call
site bounds its iteration count from above). -/
def tickDistsAux (step bound : ℚ) : ℕ → ℚ → List ℚ
  | 0, _ => []
  | fuel + 1, curr =>
    if curr < bound then curr :: tickDistsAux step bound fuel (curr + step)
    else []

/-- Fuel sufficient for `tickDistsAux`: the loop runs at most
`⌈bound / step⌉` times for positive `step`. -/
def tickFuel (step bound : ℚ) : ℕ := (⌈bound / step⌉).toNat + 1

/-- Curve-distances of the ticks of the first span
(`curr_dist` starts at `tick_dist`, increases by `tick_dist`). -/
def firstSpanTickDists (m : BeatmapModel) (d : SliderData) : List ℚ :=
  tickDistsAux (clampedTickDist m d) (sliderLen d - minDistFromEnd m d)
    (tickFuel (clampedTickDist m d) (sliderLen d - minDistFromEnd m d))
    (clampedTickDist m d)

/-- Source: `curr_time = h.start_time + progress * span_duration` with
`progress = curr_dist / len`. -/
def tickTimeOf (start : ℚ) (m : BeatmapModel) (d : SliderData) (currDist : ℚ) : ℚ :=
  start + currDist / sliderLen d * spanDuration m d

/-- Tick times of the first span, in sampling order (the `ticks` buffer). -/
def firstSpanTickTimes (start : ℚ) (m : BeatmapModel) (d : SliderData) : List ℚ :=
  (firstSpanTickDists m d).map (tickTimeOf start m d)

/-- Vertex times contributed by the repeat spans (`for span_idx in 1..=*repeats`):
the repeat point, then the first span's tick times replayed — reversed and
reflected through `base = start + start + span_duration` on odd spans,
shifted by `span_offset` on even spans. -/
def spanVertexTimes (start : ℚ) (m : BeatmapModel) (d : SliderData) : List ℚ :=
  (List.range d.repeats).flatMap fun i =>
    let spanIdx : ℚ := (i : ℚ) + 1
    let spanOffset := spanIdx * spanDuration m d
    let repeatTime := start + spanDuration m d * spanIdx
    let ticks := firstSpanTickTimes start m d
    let replayed :=
      if (i + 1) % 2 = 1 then
        ticks.reverse.map fun t => spanOffset + (start + start + spanDuration m d) - t
      else
        ticks.map fun t => spanOffset + t
    repeatTime :: replayed

/-- The unconditional final tail vertex time:
`(start + total_duration / 2).max(final_span_start + span_duration - LEGACY_LAST_TICK_OFFSET)`. -/
def tailTime (start : ℚ) (m : BeatmapModel) (d : SliderData) : ℚ :=
  let finalSpanStart := start + (d.repeats : ℚ) * spanDuration m d
  max (start + totalDuration m d / 2)
    (finalSpanStart + spanDuration m d - LEGACY_LAST_TICK_OFFSET)

/-- All times at which `compute_vertex` is invoked, in order: the tick and
repeat vertices run only under the guard `tick_dist != 0.0`; the tail vertex
is sampled unconditionally. -/
def vertexTimes (start : ℚ) (m : BeatmapModel) (d : SliderData) : List ℚ :=
  (if clampedTickDist m d ≠ 0 then
    firstSpanTickTimes start m d ++ spanVertexTimes start m d
  else []) ++ [tailTime start m d]

/-! ### The vertex geometry fold (`compute_vertex`) -/

/-- The `progress` value computed inside `compute_vertex`: `(time - start) / span_duration`
folded into `[0,1]` with the Rust `%` and reflected on odd spans. -/
def progressAt (start spanDur t : ℚ) : ℚ :=
  let p := (t - start) / spanDur
  if 1 ≤ rustRem p 2 then 1 - rustRem p 1 else rustRem p 1

/-- One `compute_vertex` invocation acting on the running
`(end_pos, travel_dist)` state: the end position advances, and travel
accumulates, only by the excess of the jump beyond the follow-circle radius
`approx_follow_circle_radius = radius * 3.0`. -/
noncomputable def vertexStep (followR : ℚ) (pos : Pos2) (curvePos : ℚ → Pos2)
    (start spanDur : ℚ) (st : Pos2 × ℝ) (t : ℚ) : Pos2 × ℝ :=
  let currPos := pos + curvePos (progressAt start spanDur t)
  let diff := currPos - st.1
  let dist := posLength diff
  if (followR : ℝ) < dist then
    (st.1 + ((dist - (followR : ℝ)) / dist) • diff, st.2 + (dist - (followR : ℝ)))
  else st

/-- The `(end_pos, travel_dist)` state after all `compute_vertex` calls of one
slider, starting from `(h.pos, 0.0)`. -/
noncomputable def sliderEndState (m : BeatmapModel) (radius : ℚ) (start : ℚ)
    (pos : Pos2) (d : SliderData) : Pos2 × ℝ :=
  (vertexTimes start m d).foldl
    (vertexStep (radius * 3) pos d.curvePos start (spanDuration m d)) (pos, 0)

/-- Combo contribution of one object: `max_combo += 1` for the head plus one
per `compute_vertex` call for sliders. -/
def comboIncrement (m : BeatmapModel) (h : HitObject) : ℕ :=
  match h.kind with
  | .slider d => 1 + (vertexTimes h.start_time m d).length
  | _ => 1

/-- Slider count contribution of one object (`n_sliders += 1`). -/
def sliderIncrement (h : HitObject) : ℕ :=
  match h.kind with
  | .slider _ => 1
  | _ => 0

/-- Embeds `OsuObject::new` (`osu_2021_january/osu_object.rs`): builds one object
summary and updates the running attribute counters. -/
noncomputable def osuObjectNew (m : BeatmapModel) (radius scaling : ℚ)
    (h : HitObject) (attrs : OsuDifficultyAttributes) :
    OsuObject × OsuDifficultyAttributes :=
  let attrs := { attrs with max_combo := attrs.max_combo + 1 }
  match h.kind with
  | .circle =>
    (⟨h.start_time, h.pos, h.pos, some 0⟩, attrs)
  | .slider d =>
    let attrs := { attrs with n_sliders := attrs.n_sliders + 1 }
    let st := sliderEndState m radius h.start_time h.pos d
    let attrs :=
      { attrs with max_combo := attrs.max_combo + (vertexTimes h.start_time m d).length }
    (⟨h.start_time, h.pos, st.1, some (st.2 * (scaling : ℝ))⟩, attrs)
  | .spinner =>
    (⟨h.start_time, h.pos, h.pos, none⟩, attrs)
  | .hold =>
    (⟨h.start_time, h.pos, h.pos, none⟩, attrs)

/-- The attribute-counter effect of constructing each object of a list in
order (the `map.hit_objects.iter().take(take).map(OsuObject::new)` stream;
the 2021-july `osu_object` module is not under `src/` — per the spec, §4.2
describes one HitObjectSample construction shared by all versions, so its
counter effects are those of the january version embedded above). -/
noncomputable def processObjects (m : BeatmapModel) (radius scaling : ℚ)
    (hs : List HitObject) (attrs : OsuDifficultyAttributes) :
    OsuDifficultyAttributes :=
  hs.foldl (fun a h => (osuObjectNew m radius scaling h a).2) attrs

/-! ### Orchestrators -/

/-- Source: `radius = OBJECT_RADIUS * (1.0 - 0.7 * (cs - 5.0) / 5.0) / 2.0`. -/
def objectRadius (cs : ℚ) : ℚ :=
  OBJECT_RADIUS * (1 - 7 / 10 * (cs - 5) / 5) / 2

/-- Source: `scaling_factor = NORMALIZED_RADIUS / radius`, with the small-circle
bonus `1.0 + (30.0 - radius).min(5.0) / 50.0` applied when `radius < 30`. -/
def scalingFactor (cs : ℚ) : ℚ :=
  let radius := objectRadius cs
  let s := NORMALIZED_RADIUS / radius
  if radius < 30 then s * (1 + min (30 - radius) 5 / 50) else s

/-- The OD mod multiplier from `osu_2015_april/stars.rs`:
`match (mods.hr(), mods.ez()) { (true, _) => 1.4, (_, true) => 0.5, _ => 1.0 }`. -/
def modMult (hr ez : Bool) : ℚ :=
  if hr then 7 / 5 else if ez then 1 / 2 else 1

/-- Embeds `modify_od` from `osu_2015_april/stars.rs`, literally. -/
def modify_od (base_od speed_mult mod_mult : ℚ) : ℚ :=
  let od := base_od * mod_mult
  let odms := OD_MIN - ((⌈6 * od⌉ : ℤ) : ℚ)
  let odms := min OD_MIN (max OD_MAX odms)
  let odms := odms / speed_mult
  (OD_MIN - odms) / 6

/-- The final star combination, line 131 of `osu_2015_april/stars.rs` and
line 125 of `osu_2021_july/mod.rs`:
`aim + speed + (aim - speed).abs() / 2.0`. -/
noncomputable def finalStars (aim speed : ℝ) : ℝ :=
  aim + speed + |aim - speed| / 2

/-- The combination the spec text asserts to be the same value:
`max(aim, speed) + min(aim, speed) / 2`. -/
noncomputable def finalStarsSpec (aim speed : ℝ) : ℝ :=
  max aim speed + min aim speed / 2

/-- Embeds `stars` of `osu_2015_april/stars.rs`.  The two skills' final
`difficulty_value()` results route through the `Skill` module, which is not
under `src/`; they enter as the parameters `aimDV`, `speedDV`, and everything
downstream of them (`sqrt`, `DIFFICULTY_MULTIPLIER`, the combination, the
field assignments) is embedded from the source. -/
noncomputable def stars2015 (m : BeatmapModel) (A : MapAttributes) (hr ez : Bool)
    (passed : Option ℕ) (aimDV speedDV : ℝ) : OsuDifficultyAttributes :=
  let take := passed.getD m.hitObjects.length
  let base : OsuDifficultyAttributes :=
    { ar := A.ar, od := modify_od m.od A.clock_rate (modMult hr ez) }
  if take < 2 then base
  else
    let radius := objectRadius A.cs
    let scaling := scalingFactor A.cs
    let a1 := processObjects m radius scaling (m.hitObjects.take take) base
    let aimStrain := Real.sqrt aimDV * (DIFFICULTY_MULTIPLIER : ℝ)
    let speedStrain := Real.sqrt speedDV * (DIFFICULTY_MULTIPLIER : ℝ)
    { a1 with
        stars := finalStars aimStrain speedStrain
        speed_strain := speedStrain
        aim_strain := aimStrain }

/-- Embeds `stars` of `osu_2021_july/mod.rs`, with the same `Skill`
parameterization as `stars2015`; at the end `n_circles` and `n_spinners`
are overwritten from the whole map's counters. -/
noncomputable def stars2021 (m : BeatmapModel) (A : MapAttributes)
    (passed : Option ℕ) (aimDV speedDV : ℝ) : OsuDifficultyAttributes :=
  let take := passed.getD m.hitObjects.length
  let base : OsuDifficultyAttributes := { ar := A.ar, od := A.od }
  if take < 2 then base
  else
    let radius := objectRadius A.cs
    let scaling := scalingFactor A.cs
    let a1 := processObjects m radius scaling (m.hitObjects.take take) base
    let aimRating := Real.sqrt aimDV * (DIFFICULTY_MULTIPLIER : ℝ)
    let speedRating := Real.sqrt speedDV * (DIFFICULTY_MULTIPLIER : ℝ)
    { a1 with
        n_circles := m.n_circles
        n_spinners := m.n_spinners
        stars := finalStars aimRating speedRating
        speed_strain := speedRating
        aim_strain := aimRating }

/-- The 2021-july object stream divides each constructed object's time by the
clock rate (`h.time /= map_attributes.clock_rate`) immediately after
construction. -/
noncomputable def buildObject2021 (m : BeatmapModel) (A : MapAttributes)
    (radius scaling : ℚ) (h : HitObject) (attrs : OsuDifficultyAttributes) :
    OsuObject × OsuDifficultyAttributes :=
  let r := osuObjectNew m radius scaling h attrs
  ({ r.1 with time := r.1.time / A.clock_rate }, r.2)

/-! ### Skill state (spec-modelled) and the section cursor -/

/-- Modelled from the spec: the per-skill state of §3/§4.4 — the `Skill`
module itself is not under `src/`.  It carries the current decayed strain,
the in-progress current-section peak, and the append-only list of saved
section peaks (empty before the first section is closed). -/
structure SkillState where
  currentStrain : ℝ
  currentSectionPeak : ℝ
  strainPeaks : List ℝ

/-- Modelled from the spec: a fresh skill has an empty peak list; the spec
does not pin the initial strain and peak values, so they are inputs. -/
def skillNew (c p : ℝ) : SkillState := ⟨c, p, []⟩

/-- Modelled from the spec: `process` applies decay and adds a contribution
to the current strain and updates the current section's running peak — it
modifies only those two fields, never the saved peak list.  The numeric
update itself is version-specific and not under `src/`, so it enters as the
function `u`. -/
def skillProcess (u : ℝ → ℝ → ℝ × ℝ) (s : SkillState) : SkillState :=
  ⟨(u s.currentStrain s.currentSectionPeak).1,
   (u s.currentStrain s.currentSectionPeak).2, s.strainPeaks⟩

/-- Modelled from the spec: `save_current_peak` freezes the just-closed
section's peak by appending it to the permanent peak list. -/
def saveCurrentPeak (s : SkillState) : SkillState :=
  ⟨s.currentStrain, s.currentSectionPeak, s.strainPeaks ++ [s.currentSectionPeak]⟩

/-- Modelled from the spec: `start_new_section_from` resets the in-progress
peak tracker for the new section; the reset value (a decayed strain at the
boundary time) is computed by the missing `Skill` code and enters as `r`. -/
def startNewSectionFrom (r : ℝ) (s : SkillState) : SkillState :=
  ⟨s.currentStrain, r, s.strainPeaks⟩

/-- The initial section boundary:
`current_section_end = (t0 / section_len).ceil() * section_len`. -/
def initialSectionEnd (t0 sectionLen : ℚ) : ℚ :=
  ((⌈t0 / sectionLen⌉ : ℤ) : ℚ) * sectionLen

/-- The 2015 section width: `SECTION_LEN * map_attributes.clock_rate`. -/
def sectionLen2015 (clockRate : ℚ) : ℚ := SECTION_LEN * clockRate

/-- The cursor-advancing loop
`while h.base.time > current_section_end { current_section_end += section_len }`,
embedded with explicit fuel. -/
def advanceCursor (t sectionLen : ℚ) : ℕ → ℚ → ℚ
  | 0, secEnd => secEnd
  | fuel + 1, secEnd =>
    if secEnd < t then advanceCursor t sectionLen fuel (secEnd + sectionLen)
    else secEnd

/-- Fuel sufficient for `advanceCursor` when the section width is positive. -/
def cursorFuel (t sectionLen secEnd : ℚ) : ℕ :=
  (⌈(t - secEnd) / sectionLen⌉).toNat + 1

/-- The very first pairing: both skills process the transition; the cursor
advance that anchors the first section boundary runs with no
`save_current_peak` call (lines 92–97 of `osu_2015_april/stars.rs`,
lines 87–92 of `osu_2021_july/mod.rs`). -/
def firstPairing (uAim uSpeed : ℝ → ℝ → ℝ × ℝ) (tSecond sectionLen secEnd : ℚ)
    (aim speed : SkillState) : ℚ × SkillState × SkillState :=
  (advanceCursor tSecond sectionLen (cursorFuel tSecond sectionLen secEnd) secEnd,
   skillProcess uAim aim, skillProcess uSpeed speed)

/-! ### Counter accounting helpers -/

/-- Total combo contribution of a list of objects. -/
def comboCount (m : BeatmapModel) (hs : List HitObject) : ℕ :=
  (hs.map (comboIncrement m)).sum

/-- Total slider-count contribution of a list of objects. -/
def sliderCountOf (hs : List HitObject) : ℕ := (hs.map sliderIncrement).sum

/-! ### Concrete inputs used by counterexamples and witnesses -/

/-- A circle at time `t`, position `(0, 0)`. -/
def circleAt (t : ℚ) : HitObject := ⟨t, ((0 : ℝ), (0 : ℝ)), .circle⟩

/-- A two-circle map. -/
def mapTwoCircles : BeatmapModel := ⟨5, 1, 1, 8, 2, 0, [circleAt 0, circleAt 500]⟩

/-- A one-circle map. -/
def mapOneCircle : BeatmapModel := ⟨5, 1, 1, 8, 1, 0, [circleAt 0]⟩

/-- A three-circle map (the spec's §8 end-to-end scenario has three circles). -/
def mapThreeCircles : BeatmapModel :=
  ⟨5, 1, 1, 8, 3, 0, [circleAt 0, circleAt 500, circleAt 1000]⟩

/-- Nomod map attributes: `ar 9`, `od 9`, `cs 5`, clock rate `1`. -/
def nomodAttrs : MapAttributes := ⟨9, 9, 5, 1⟩

/-- The origin position. -/
def origin : Pos2 := ((0 : ℝ), (0 : ℝ))

/-- A map-level context for single-slider runs: `slider_mult 1`,
`tick_rate 1`, format version 8. -/
def ctxMap : BeatmapModel := ⟨5, 1, 1, 8, 0, 0, []⟩

/-- A structurally valid but degenerate slider: its control points coincide,
so the curve evaluator degrades to a zero-length path (spec §4.1: fewer than
2 distinct points is treated as zero-length/degenerate, every `position_at`
returning the first point).  `beat_len 1000`, `slider_vel 1`, ticks on. -/
def degenerateSlider : SliderData := ⟨0, 1000, 1, true, 0, fun _ => origin⟩

/-- The degenerate slider as a hit object at time 0. -/
def degHit : HitObject := ⟨0, origin, .slider degenerateSlider⟩

/-- A straight 80-pixel slider (control points `(0,0)` and `(80,0)`,
declared length matching the geometry, so `position_at p = (80 p, 0)`),
`beat_len 100`, one span. -/
def farSliderD : SliderData := ⟨0, 100, 1, true, 80, fun q => (((80 * q : ℚ) : ℝ), 0)⟩

/-- A straight 20-pixel slider; `position_at` clamps progress into `[0,1]`
(spec §4.1), so the whole path lies within 20 pixels of the start. -/
def nearSliderD : SliderData :=
  ⟨0, 100, 1, true, 20, fun q => (((20 * max 0 (min 1 q) : ℚ) : ℝ), 0)⟩

/-- A straight 40-pixel slider, `beat_len 100`, one span: its path length
(40) exceeds the follow-circle radius (30 for `radius = 10`), but its only
sampled vertex (the tail, at progress 1/2) stays within the follow circle. -/
def midSliderD : SliderData := ⟨0, 100, 1, true, 40, fun q => (((40 * q : ℚ) : ℝ), 0)⟩

/-! ### Shared helper lemmas -/

/-- Euclidean length of an axis-aligned vector. -/
lemma posLength_axis (x : ℝ) : posLength (x, 0) = |x| := by
  rw [posLength]
  norm_num [Real.sqrt_sq_eq_abs]

/-- A `compute_vertex` call whose jump does not exceed the follow-circle
radius leaves the `(end_pos, travel)` state unchanged. -/
lemma vertexStep_of_le (followR : ℚ) (pos : Pos2) (cp : ℚ → Pos2) (start sd : ℚ)
    (st : Pos2 × ℝ) (t : ℚ)
    (h : posLength (pos + cp (progressAt start sd t) - st.1) ≤ ((followR : ℚ) : ℝ)) :
    vertexStep followR pos cp start sd st t = st := by
  simp only [vertexStep]
  rw [if_neg (not_lt.mpr h)]

/-- A `compute_vertex` call whose jump exceeds the follow-circle radius
accumulates exactly the excess into travel. -/
lemma vertexStep_of_lt (followR : ℚ) (pos : Pos2) (cp : ℚ → Pos2) (start sd : ℚ)
    (st : Pos2 × ℝ) (t : ℚ)
    (h : ((followR : ℚ) : ℝ) < posLength (pos + cp (progressAt start sd t) - st.1)) :
    vertexStep followR pos cp start sd st t =
      (st.1 + ((posLength (pos + cp (progressAt start sd t) - st.1) - (followR : ℝ))
            / posLength (pos + cp (progressAt start sd t) - st.1))
          • (pos + cp (progressAt start sd t) - st.1),
       st.2 + (posLength (pos + cp (progressAt start sd t) - st.1) - (followR : ℝ))) := by
  simp only [vertexStep]
  rw [if_pos h]

/-- One `compute_vertex` call never decreases the accumulated travel. -/
lemma vertexStep_travel_mono (followR : ℚ) (pos : Pos2) (cp : ℚ → Pos2) (start sd : ℚ)
    (st : Pos2 × ℝ) (t : ℚ) :
    st.2 ≤ (vertexStep followR pos cp start sd st t).2 := by
  by_cases h : ((followR : ℚ) : ℝ) < posLength (pos + cp (progressAt start sd t) - st.1)
  · rw [vertexStep_of_lt followR pos cp start sd st t h]
    have : (0 : ℝ) ≤ posLength (pos + cp (progressAt start sd t) - st.1) - followR := by
      linarith
    simpa using this
  · rw [vertexStep_of_le followR pos cp start sd st t (not_lt.mp h)]

/-- The whole vertex walk never decreases the accumulated travel. -/
lemma foldlVertex_travel_mono (followR : ℚ) (pos : Pos2) (cp : ℚ → Pos2) (start sd : ℚ) :
    ∀ (ts : List ℚ) (st : Pos2 × ℝ),
      st.2 ≤ (ts.foldl (vertexStep followR pos cp start sd) st).2 := by
  intro ts
  induction ts with
  | nil => intro st; exact le_rfl
  | cons t rest ih =>
    intro st
    rw [List.foldl_cons]
    exact le_trans (vertexStep_travel_mono followR pos cp start sd st t) (ih _)

/-- If every curve position stays within the follow-circle radius of the
start, the walk never moves the end position nor accumulates travel. -/
lemma foldlVertex_within (followR : ℚ) (pos : Pos2) (cp : ℚ → Pos2) (start sd : ℚ)
    (hall : ∀ q : ℚ, posLength (cp q) ≤ ((followR : ℚ) : ℝ)) :
    ∀ ts : List ℚ, ts.foldl (vertexStep followR pos cp start sd) (pos, 0) = (pos, 0) := by
  intro ts
  induction ts with
  | nil => rfl
  | cons t rest ih =>
    rw [List.foldl_cons, vertexStep_of_le, ih]
    show posLength (pos + cp (progressAt start sd t) - pos) ≤ _
    rw [add_sub_cancel_left]
    exact hall _

/-- If some sampled vertex position lies strictly beyond the follow-circle
radius of the start, the walk accumulates strictly positive travel. -/
lemma foldlVertex_pos (followR : ℚ) (pos : Pos2) (cp : ℚ → Pos2) (start sd : ℚ) :
    ∀ ts : List ℚ,
      (∃ t ∈ ts, ((followR : ℚ) : ℝ) < posLength (cp (progressAt start sd t))) →
      0 < (ts.foldl (vertexStep followR pos cp start sd) (pos, 0)).2 := by
  intro ts
  induction ts with
  | nil => rintro ⟨t, ht, -⟩; exact absurd ht (List.not_mem_nil t)
  | cons t rest ih =>
    rintro ⟨u, hu, hfar⟩
    rw [List.foldl_cons]
    by_cases hd : ((followR : ℚ) : ℝ) <
        posLength (pos + cp (progressAt start sd t) - (pos, (0 : ℝ)).1)
    · refine lt_of_lt_of_le ?_
        (foldlVertex_travel_mono followR pos cp start sd rest _)
      rw [vertexStep_of_lt followR pos cp start sd _ t hd]
      have : (0 : ℝ) <
          posLength (pos + cp (progressAt start sd t) - (pos, (0 : ℝ)).1) - followR := by
        linarith
      simpa using this
    · rw [vertexStep_of_le followR pos cp start sd _ t (not_lt.mp hd)]
      apply ih
      rcases List.mem_cons.mp hu with rfl | hmem
      · exfalso
        apply hd
        show _ < posLength (pos + cp (progressAt start sd u) - pos)
        rw [add_sub_cancel_left]
        exact hfar
      · exact ⟨u, hmem, hfar⟩

/-- Projection: the travel distance stored for a slider is the accumulated
fold travel times the scaling factor. -/
lemma osuObjectNew_slider_travel (m : BeatmapModel) (radius scaling t : ℚ) (p : Pos2)
    (d : SliderData) (attrs : OsuDifficultyAttributes) :
    ((osuObjectNew m radius scaling ⟨t, p, .slider d⟩ attrs).1).travel_dist =
      some ((sliderEndState m radius t p d).2 * (scaling : ℝ)) := rfl

/-- The source's combination `a + s + |a - s| / 2` in closed min/max form. -/
lemma finalStars_eq_max_min (a s : ℝ) :
    finalStars a s = (3 * max a s + min a s) / 2 := by
  rcases le_total a s with h | h
  · rw [finalStars, abs_of_nonpos (by linarith), max_eq_right h, min_eq_left h]
    ring
  · rw [finalStars, abs_of_nonneg (by linarith), max_eq_left h, min_eq_right h]
    ring

/-! ### Claim C1 -/

/-- Claim C1, counterexample: at a concrete two-circle map with skill
difficulty values chosen so that the returned component strains are `4` and
`2`, the returned `stars` field (which is `4 + 2 + |4 - 2| / 2 = 7`) differs
from `max(aim, speed) + min(aim, speed) / 2 = 5`, refuting the claimed
equality (and with it the spec's asserted equivalence of the two
expressions). -/
theorem C1_counterexample :
    (stars2015 mapTwoCircles nomodAttrs false false none ((1600 / 27 : ℝ) ^ 2)
        ((800 / 27 : ℝ) ^ 2)).stars ≠
      finalStarsSpec
        (stars2015 mapTwoCircles nomodAttrs false false none ((1600 / 27 : ℝ) ^ 2)
          ((800 / 27 : ℝ) ^ 2)).aim_strain
        (stars2015 mapTwoCircles nomodAttrs false false none ((1600 / 27 : ℝ) ^ 2)
          ((800 / 27 : ℝ) ^ 2)).speed_strain := by
  have hsq1 : Real.sqrt ((1600 / 27 : ℝ) ^ 2) = 1600 / 27 := Real.sqrt_sq (by norm_num)
  have hsq2 : Real.sqrt ((800 / 27 : ℝ) ^ 2) = 800 / 27 := Real.sqrt_sq (by norm_num)
  have htake : ¬ ((none : Option ℕ).getD mapTwoCircles.hitObjects.length < 2) := by decide
  simp only [stars2015, htake, if_false, hsq1, hsq2]
  rw [show ((1600 : ℝ) / 27) * (DIFFICULTY_MULTIPLIER : ℚ) = 4 by
        rw [DIFFICULTY_MULTIPLIER]; push_cast; ring,
      show ((800 : ℝ) / 27) * (DIFFICULTY_MULTIPLIER : ℚ) = 2 by
        rw [DIFFICULTY_MULTIPLIER]; push_cast; ring]
  rw [finalStars, finalStarsSpec]
  norm_num

/-- Claim C1 (amended): for every map, mods and cutoff with at least two
in-scope objects, the `stars` field of the returned attributes equals
`aim + speed + |aim - speed| / 2` of the two returned component strains —
which equals `(3 * max(aim, speed) + min(aim, speed)) / 2`, not
`max(aim, speed) + min(aim, speed) / 2` as the spec asserts. -/
theorem C1_stars_combination (m : BeatmapModel) (A : MapAttributes) (hr ez : Bool)
    (passed : Option ℕ) (aimDV speedDV : ℝ)
    (htake : 2 ≤ passed.getD m.hitObjects.length) :
    ((stars2015 m A hr ez passed aimDV speedDV).stars =
        finalStars (stars2015 m A hr ez passed aimDV speedDV).aim_strain
          (stars2015 m A hr ez passed aimDV speedDV).speed_strain
      ∧ (stars2015 m A hr ez passed aimDV speedDV).stars =
          (3 * max (stars2015 m A hr ez passed aimDV speedDV).aim_strain
              (stars2015 m A hr ez passed aimDV speedDV).speed_strain
            + min (stars2015 m A hr ez passed aimDV speedDV).aim_strain
              (stars2015 m A hr ez passed aimDV speedDV).speed_strain) / 2)
    ∧ ((stars2021 m A passed aimDV speedDV).stars =
        finalStars (stars2021 m A passed aimDV speedDV).aim_strain
          (stars2021 m A passed aimDV speedDV).speed_strain
      ∧ (stars2021 m A passed aimDV speedDV).stars =
          (3 * max (stars2021 m A passed aimDV speedDV).aim_strain
              (stars2021 m A passed aimDV speedDV).speed_strain
            + min (stars2021 m A passed aimDV speedDV).aim_strain
              (stars2021 m A passed aimDV speedDV).speed_strain) / 2) := by
  have h2 : ¬ (passed.getD m.hitObjects.length < 2) := not_lt.mpr htake
  constructor
  · simp only [stars2015, h2, if_false]
    exact ⟨trivial, finalStars_eq_max_min _ _⟩
  · simp only [stars2021, h2, if_false]
    exact ⟨trivial, finalStars_eq_max_min _ _⟩

/-- Witness for `C1_stars_combination` at the concrete two-circle map. -/
theorem C1_stars_combination_witness :
    2 ≤ (none : Option ℕ).getD mapTwoCircles.hitObjects.length
    ∧ (((stars2015 mapTwoCircles nomodAttrs false false none 0 0).stars =
          finalStars (stars2015 mapTwoCircles nomodAttrs false false none 0 0).aim_strain
            (stars2015 mapTwoCircles nomodAttrs false false none 0 0).speed_strain
        ∧ (stars2015 mapTwoCircles nomodAttrs false false none 0 0).stars =
            (3 * max (stars2015 mapTwoCircles nomodAttrs false false none 0 0).aim_strain
                (stars2015 mapTwoCircles nomodAttrs false false none 0 0).speed_strain
              + min (stars2015 mapTwoCircles nomodAttrs false false none 0 0).aim_strain
                (stars2015 mapTwoCircles nomodAttrs false false none 0 0).speed_strain) / 2)
      ∧ ((stars2021 mapTwoCircles nomodAttrs none 0 0).stars =
          finalStars (stars2021 mapTwoCircles nomodAttrs none 0 0).aim_strain
            (stars2021 mapTwoCircles nomodAttrs none 0 0).speed_strain
        ∧ (stars2021 mapTwoCircles nomodAttrs none 0 0).stars =
            (3 * max (stars2021 mapTwoCircles nomodAttrs none 0 0).aim_strain
                (stars2021 mapTwoCircles nomodAttrs none 0 0).speed_strain
              + min (stars2021 mapTwoCircles nomodAttrs none 0 0).aim_strain
                (stars2021 mapTwoCircles nomodAttrs none 0 0).speed_strain) / 2)) :=
  ⟨by decide, C1_stars_combination mapTwoCircles nomodAttrs false false none 0 0 (by decide)⟩

/-! ### Claim C2 -/

/-- Claim C2 (confirmed): with fewer than two in-scope objects, both
orchestrators return without error an attributes value in which only `ar`
and `od` are populated and every other field is zero. -/
theorem C2_minimal_attributes (m : BeatmapModel) (A : MapAttributes) (hr ez : Bool)
    (passed : Option ℕ) (aimDV speedDV : ℝ)
    (htake : passed.getD m.hitObjects.length < 2) :
    (stars2015 m A hr ez passed aimDV speedDV =
      { ar := A.ar, od := modify_od m.od A.clock_rate (modMult hr ez), aim_strain := 0,
        speed_strain := 0, hp := 0, n_circles := 0, n_sliders := 0, n_spinners := 0,
        stars := 0, max_combo := 0 })
    ∧ (stars2021 m A passed aimDV speedDV =
      { ar := A.ar, od := A.od, aim_strain := 0, speed_strain := 0, hp := 0,
        n_circles := 0, n_sliders := 0, n_spinners := 0, stars := 0, max_combo := 0 }) := by
  constructor
  · simp only [stars2015, htake, if_true]
  · simp only [stars2021, htake, if_true]

/-- Witness for `C2_minimal_attributes` at a concrete one-circle map. -/
theorem C2_minimal_attributes_witness :
    (none : Option ℕ).getD mapOneCircle.hitObjects.length < 2
    ∧ ((stars2015 mapOneCircle nomodAttrs false false none 0 0 =
        { ar := nomodAttrs.ar,
          od := modify_od mapOneCircle.od nomodAttrs.clock_rate (modMult false false),
          aim_strain := 0, speed_strain := 0, hp := 0, n_circles := 0, n_sliders := 0,
          n_spinners := 0, stars := 0, max_combo := 0 })
      ∧ (stars2021 mapOneCircle nomodAttrs none 0 0 =
        { ar := nomodAttrs.ar, od := nomodAttrs.od, aim_strain := 0, speed_strain := 0,
          hp := 0, n_circles := 0, n_sliders := 0, n_spinners := 0, stars := 0,
          max_combo := 0 })) :=
  ⟨by decide, C2_minimal_attributes mapOneCircle nomodAttrs false false none 0 0 (by decide)⟩

/-! ### Claim C7 -/

/-- Claim C7 (confirmed): the 2015-april `modify_od` returns
`(79.5 - odms) / 6` with
`odms = min(79.5, max(19.5, 79.5 - ceil(6 * base_od * mod_mult))) / clock_rate`,
reproducing the historical clamp `OD_MIN.min(OD_MAX.max(odms))` literally
(`OD_MIN = 79.5 > OD_MAX = 19.5`). -/
theorem C7_modify_od_formula (base_od clock_rate mod_mult : ℚ) :
    modify_od base_od clock_rate mod_mult =
      (79.5 - min (79.5 : ℚ) (max 19.5 (79.5 - ((⌈6 * base_od * mod_mult⌉ : ℤ) : ℚ)))
          / clock_rate) / 6
    ∧ OD_MIN = 79.5 ∧ OD_MAX = 19.5 ∧ OD_MAX < OD_MIN := by
  refine ⟨?_, by norm_num [OD_MIN], by norm_num [OD_MAX], by norm_num [OD_MIN, OD_MAX]⟩
  show (OD_MIN - min OD_MIN (max OD_MAX (OD_MIN - ((⌈6 * (base_od * mod_mult)⌉ : ℤ) : ℚ)))
      / clock_rate) / 6 = _
  rw [OD_MIN, OD_MAX, mul_assoc]
  norm_num

/-! ### Claim C10 -/

/-- Claim C10 (confirmed): the OD mod multiplier is `1.4` whenever HR is
present (the HR branch takes precedence over EZ), `0.5` for EZ without HR,
and `1.0` otherwise. -/
theorem C10_mod_multiplier :
    modMult true true = 1.4 ∧ modMult true false = 1.4
    ∧ modMult false true = 0.5 ∧ modMult false false = 1 := by
  norm_num [modMult]

/-! ### Counter accounting lemmas -/

lemma osuObjectNew_time (m : BeatmapModel) (radius scaling : ℚ) (h : HitObject)
    (attrs : OsuDifficultyAttributes) :
    ((osuObjectNew m radius scaling h attrs).1).time = h.start_time := by
  rcases h with ⟨t, p, k⟩
  cases k <;> rfl

lemma osuObjectNew_max_combo (m : BeatmapModel) (radius scaling : ℚ) (h : HitObject)
    (attrs : OsuDifficultyAttributes) :
    ((osuObjectNew m radius scaling h attrs).2).max_combo =
      attrs.max_combo + comboIncrement m h := by
  rcases h with ⟨t, p, k⟩
  cases k <;> simp [osuObjectNew, comboIncrement, Nat.add_assoc]

lemma osuObjectNew_n_sliders (m : BeatmapModel) (radius scaling : ℚ) (h : HitObject)
    (attrs : OsuDifficultyAttributes) :
    ((osuObjectNew m radius scaling h attrs).2).n_sliders =
      attrs.n_sliders + sliderIncrement h := by
  rcases h with ⟨t, p, k⟩
  cases k <;> simp [osuObjectNew, sliderIncrement]

lemma processObjects_max_combo (m : BeatmapModel) (radius scaling : ℚ) :
    ∀ (hs : List HitObject) (attrs : OsuDifficultyAttributes),
      (processObjects m radius scaling hs attrs).max_combo =
        attrs.max_combo + comboCount m hs := by
  intro hs
  induction hs with
  | nil => intro attrs; simp [processObjects, comboCount]
  | cons h t ih =>
    intro attrs
    have := ih ((osuObjectNew m radius scaling h attrs).2)
    simp only [processObjects, List.foldl_cons] at this ⊢
    rw [this, osuObjectNew_max_combo]
    simp [comboCount]
    omega

lemma processObjects_n_sliders (m : BeatmapModel) (radius scaling : ℚ) :
    ∀ (hs : List HitObject) (attrs : OsuDifficultyAttributes),
      (processObjects m radius scaling hs attrs).n_sliders =
        attrs.n_sliders + sliderCountOf hs := by
  intro hs
  induction hs with
  | nil => intro attrs; simp [processObjects, sliderCountOf]
  | cons h t ih =>
    intro attrs
    have := ih ((osuObjectNew m radius scaling h attrs).2)
    simp only [processObjects, List.foldl_cons] at this ⊢
    rw [this, osuObjectNew_n_sliders]
    simp [sliderCountOf]
    omega

/-! ### Claim C6 -/

/-- Claim C6 (confirmed): `OsuObject::new` increments the running `max_combo`
counter by exactly 1 for every circle, spinner and hold, and for a slider by
1 for the head plus 1 per sampled vertex (`compute_vertex` call); a run over
`n` circles therefore yields `max_combo = n`. -/
theorem C6_max_combo_accounting :
    (∀ (m : BeatmapModel) (radius scaling t : ℚ) (p : Pos2)
        (attrs : OsuDifficultyAttributes),
      ((osuObjectNew m radius scaling ⟨t, p, .circle⟩ attrs).2).max_combo =
        attrs.max_combo + 1)
    ∧ (∀ (m : BeatmapModel) (radius scaling t : ℚ) (p : Pos2)
        (attrs : OsuDifficultyAttributes),
      ((osuObjectNew m radius scaling ⟨t, p, .spinner⟩ attrs).2).max_combo =
        attrs.max_combo + 1)
    ∧ (∀ (m : BeatmapModel) (radius scaling t : ℚ) (p : Pos2)
        (attrs : OsuDifficultyAttributes),
      ((osuObjectNew m radius scaling ⟨t, p, .hold⟩ attrs).2).max_combo =
        attrs.max_combo + 1)
    ∧ (∀ (m : BeatmapModel) (radius scaling t : ℚ) (p : Pos2) (d : SliderData)
        (attrs : OsuDifficultyAttributes),
      ((osuObjectNew m radius scaling ⟨t, p, .slider d⟩ attrs).2).max_combo =
        attrs.max_combo + 1 + (vertexTimes t m d).length)
    ∧ (∀ (m : BeatmapModel) (radius scaling t : ℚ) (p : Pos2) (n : ℕ),
      (processObjects m radius scaling (List.replicate n ⟨t, p, .circle⟩)
          ({} : OsuDifficultyAttributes)).max_combo = n) := by
  refine ⟨?_, ?_, ?_, ?_, ?_⟩
  · intro m radius scaling t p attrs; simp [osuObjectNew]
  · intro m radius scaling t p attrs; simp [osuObjectNew]
  · intro m radius scaling t p attrs; simp [osuObjectNew]
  · intro m radius scaling t p d attrs; simp [osuObjectNew]
  · intro m radius scaling t p n
    rw [processObjects_max_combo]
    simp [comboCount, comboIncrement, List.map_replicate, List.sum_replicate]

/-! ### Claim C8 -/

/-- Claim C8 (confirmed): the initial section boundary is
`ceil(t0 / L) * L` for the first object's time `t0`; `L` is
`400 * clock_rate` in the 2015 version, while the 2021 version uses the
constant `400` and instead divides each object's time by the clock rate
immediately after construction; and the cursor advance performed for the
very first pairing appends no strain peaks (both skills' peak lists are
still empty after it). -/
theorem C8_first_section_boundary :
    (∀ clockRate : ℚ, sectionLen2015 clockRate = 400 * clockRate)
    ∧ (∀ t0 clockRate : ℚ,
        initialSectionEnd t0 (sectionLen2015 clockRate) =
          ((⌈t0 / (400 * clockRate)⌉ : ℤ) : ℚ) * (400 * clockRate))
    ∧ SECTION_LEN = 400
    ∧ (∀ t0 clockRate : ℚ,
        initialSectionEnd (t0 / clockRate) SECTION_LEN =
          ((⌈t0 / clockRate / 400⌉ : ℤ) : ℚ) * 400)
    ∧ (∀ (m : BeatmapModel) (A : MapAttributes) (radius scaling : ℚ)
        (h : HitObject) (attrs : OsuDifficultyAttributes),
        ((buildObject2021 m A radius scaling h attrs).1).time =
          h.start_time / A.clock_rate)
    ∧ (∀ (uAim uSpeed : ℝ → ℝ → ℝ × ℝ) (tSecond sectionLen secEnd : ℚ)
        (cA pA cS pS : ℝ),
        ((firstPairing uAim uSpeed tSecond sectionLen secEnd
            (skillNew cA pA) (skillNew cS pS)).2.1).strainPeaks = []
        ∧ ((firstPairing uAim uSpeed tSecond sectionLen secEnd
            (skillNew cA pA) (skillNew cS pS)).2.2).strainPeaks = []) := by
  refine ⟨?_, ?_, ?_, ?_, ?_, ?_⟩
  · intro clockRate; rw [sectionLen2015, SECTION_LEN]
  · intro t0 clockRate; rw [initialSectionEnd, sectionLen2015, SECTION_LEN]
  · rw [SECTION_LEN]
  · intro t0 clockRate; rw [initialSectionEnd, SECTION_LEN]
  · intro m A radius scaling h attrs
    show ((osuObjectNew m radius scaling h attrs).1).time / A.clock_rate = _
    rw [osuObjectNew_time]
  · intro uAim uSpeed tSecond sectionLen secEnd cA pA cS pS
    exact ⟨rfl, rfl⟩

/-! ### Claim C9 -/

/-- Claim C9 (confirmed): in the 2021-july version, under any cutoff with at
least two in-scope objects, `n_circles` and `n_spinners` are copied from the
whole map's counters regardless of the cutoff, while `max_combo` and
`n_sliders` accumulate only over the first `take` objects — so under a
cutoff the counts in one attributes value can be mutually inconsistent
(a value with `max_combo` below `n_circles` exists). -/
theorem C9_count_fields_inconsistent (m : BeatmapModel) (A : MapAttributes)
    (passed : Option ℕ) (aimDV speedDV : ℝ)
    (htake : 2 ≤ passed.getD m.hitObjects.length) :
    ((stars2021 m A passed aimDV speedDV).n_circles = m.n_circles
      ∧ (stars2021 m A passed aimDV speedDV).n_spinners = m.n_spinners
      ∧ (stars2021 m A passed aimDV speedDV).max_combo =
          comboCount m (m.hitObjects.take (passed.getD m.hitObjects.length))
      ∧ (stars2021 m A passed aimDV speedDV).n_sliders =
          sliderCountOf (m.hitObjects.take (passed.getD m.hitObjects.length)))
    ∧ ∃ (mx : BeatmapModel) (Ax : MapAttributes) (px : Option ℕ) (ax sx : ℝ),
        (stars2021 mx Ax px ax sx).max_combo < (stars2021 mx Ax px ax sx).n_circles := by
  have h2 : ¬ (passed.getD m.hitObjects.length < 2) := not_lt.mpr htake
  constructor
  · simp only [stars2021, h2, if_false]
    refine ⟨trivial, trivial, ?_, ?_⟩
    · rw [processObjects_max_combo]; simp
    · rw [processObjects_n_sliders]; simp
  · refine ⟨mapThreeCircles, nomodAttrs, some 2, 0, 0, ?_⟩
    have h2x : ¬ ((some 2 : Option ℕ).getD mapThreeCircles.hitObjects.length < 2) := by
      decide
    simp only [stars2021, h2x, if_false]
    rw [processObjects_max_combo]
    simp [mapThreeCircles, comboCount, comboIncrement, circleAt]

/-- Witness for `C9_count_fields_inconsistent` at the three-circle map with
cutoff 2: the returned `n_circles` is 3 while `max_combo` is 2. -/
theorem C9_count_fields_inconsistent_witness :
    2 ≤ (some 2 : Option ℕ).getD mapThreeCircles.hitObjects.length
    ∧ (((stars2021 mapThreeCircles nomodAttrs (some 2) 0 0).n_circles =
          mapThreeCircles.n_circles
        ∧ (stars2021 mapThreeCircles nomodAttrs (some 2) 0 0).n_spinners =
            mapThreeCircles.n_spinners
        ∧ (stars2021 mapThreeCircles nomodAttrs (some 2) 0 0).max_combo =
            comboCount mapThreeCircles
              (mapThreeCircles.hitObjects.take
                ((some 2 : Option ℕ).getD mapThreeCircles.hitObjects.length))
        ∧ (stars2021 mapThreeCircles nomodAttrs (some 2) 0 0).n_sliders =
            sliderCountOf
              (mapThreeCircles.hitObjects.take
                ((some 2 : Option ℕ).getD mapThreeCircles.hitObjects.length)))
      ∧ ∃ (mx : BeatmapModel) (Ax : MapAttributes) (px : Option ℕ) (ax sx : ℝ),
          (stars2021 mx Ax px ax sx).max_combo < (stars2021 mx Ax px ax sx).n_circles) :=
  ⟨by decide,
   C9_count_fields_inconsistent mapThreeCircles nomodAttrs (some 2) 0 0 (by decide)⟩

/-! ### Evaluation lemmas for the concrete sliders -/

lemma degenerate_clampedTickDist : clampedTickDist ctxMap degenerateSlider = 0 := by
  norm_num [clampedTickDist, tickDistRaw, scoringDist, sliderLen, ctxMap, degenerateSlider,
    BASE_SCORING_DISTANCE]

lemma degenerate_spanDuration : spanDuration ctxMap degenerateSlider = 0 := by
  norm_num [spanDuration, totalDuration, spanCount, sliderVel, scoringDist, ctxMap,
    degenerateSlider, BASE_SCORING_DISTANCE]

lemma degenerate_vertexTimes : vertexTimes 0 ctxMap degenerateSlider = [0] := by
  norm_num [vertexTimes, clampedTickDist, tickDistRaw, scoringDist, sliderLen, tailTime,
    spanDuration, totalDuration, spanCount, sliderVel, ctxMap, degenerateSlider,
    BASE_SCORING_DISTANCE, LEGACY_LAST_TICK_OFFSET]

lemma degenerate_endState :
    sliderEndState ctxMap 10 0 origin degenerateSlider = (origin, 0) := by
  rw [sliderEndState, degenerate_vertexTimes, List.foldl_cons, List.foldl_nil]
  apply vertexStep_of_le
  show posLength (origin + origin - origin) ≤ _
  rw [add_sub_cancel_left, origin, posLength]
  rw [show (0 : ℝ) ^ 2 + (0 : ℝ) ^ 2 = 0 by norm_num, Real.sqrt_zero]
  norm_num

/-! ### Claim C3 -/

/-- Claim C3, counterexample: for the structurally valid degenerate slider
(coincident control points, hence a zero-length curve), the clamped tick
distance is `0` — the clamp's lower bound is zero, not a positive floor —
and the span duration is `0`, yet the unconditional final tail vertex is
still sampled (the vertex-time list is `[0]`), so the progress computation
`(time - start_time) / span_duration` inside `compute_vertex` runs with a
zero divisor. -/
theorem C3_counterexample :
    clampedTickDist ctxMap degenerateSlider = 0
    ∧ spanDuration ctxMap degenerateSlider = 0
    ∧ vertexTimes 0 ctxMap degenerateSlider = [0] :=
  ⟨degenerate_clampedTickDist, degenerate_spanDuration, degenerate_vertexTimes⟩

/-- Claim C3 (amended): tick distance is clamped into `[0, len]` — a zero
floor, not a positive one — and the tick/repeat loop is separately guarded
by `tick_dist != 0.0`; the progress divisor `span_duration` is nonzero for
every slider with positive curve length and positive scoring velocity, but
for a zero-length curve it is zero and the unconditional tail vertex still
divides by it. -/
theorem C3_tick_clamp_and_span (m : BeatmapModel) (d : SliderData)
    (hvel : 0 < sliderVel m d) (hdist : 0 < d.curveDist) :
    spanDuration m d ≠ 0
    ∧ 0 ≤ clampedTickDist m d ∧ clampedTickDist m d ≤ sliderLen d := by
  have hlen : 0 ≤ sliderLen d := le_min hdist.le (by norm_num)
  refine ⟨?_, ?_, ?_⟩
  · have hsc : spanCount d ≠ 0 := by
      rw [spanCount]
      positivity
    have hform : spanDuration m d = d.curveDist / sliderVel m d := by
      rw [spanDuration, totalDuration, mul_div_assoc, mul_div_cancel_left₀ _ hsc]
    rw [hform]
    exact ne_of_gt (div_pos hdist hvel)
  · rcases htd : tickDistRaw m d with - | r
    · rw [clampedTickDist, htd]
      exact hlen
    · rw [clampedTickDist, htd]
      exact le_min (le_max_left 0 r) hlen
  · rcases htd : tickDistRaw m d with - | r
    · rw [clampedTickDist, htd]
    · rw [clampedTickDist, htd]
      exact min_le_right _ _

/-- Witness for `C3_tick_clamp_and_span` at the concrete straight 80-pixel
slider. -/
theorem C3_tick_clamp_and_span_witness :
    0 < sliderVel ctxMap farSliderD ∧ 0 < farSliderD.curveDist
    ∧ (spanDuration ctxMap farSliderD ≠ 0
      ∧ 0 ≤ clampedTickDist ctxMap farSliderD
      ∧ clampedTickDist ctxMap farSliderD ≤ sliderLen farSliderD) :=
  ⟨by norm_num [sliderVel, scoringDist, ctxMap, farSliderD, BASE_SCORING_DISTANCE],
   by norm_num [farSliderD],
   C3_tick_clamp_and_span ctxMap farSliderD
     (by norm_num [sliderVel, scoringDist, ctxMap, farSliderD, BASE_SCORING_DISTANCE])
     (by norm_num [farSliderD])⟩

/-! ### Claim C4 -/

/-- Claim C4, counterexample: the degenerate slider is a hold object, yet
its stored travel distance is `Some 0.0`, not `Some d` with `d > 0`. -/
theorem C4_counterexample :
    ((osuObjectNew ctxMap 10 1 degHit ({} : OsuDifficultyAttributes)).1).travel_dist = some 0
    ∧ ¬ ∃ tr : ℝ,
        ((osuObjectNew ctxMap 10 1 degHit ({} : OsuDifficultyAttributes)).1).travel_dist =
          some tr ∧ 0 < tr := by
  have heq : ((osuObjectNew ctxMap 10 1 degHit
      ({} : OsuDifficultyAttributes)).1).travel_dist = some 0 := by
    rw [show degHit = ⟨0, origin, .slider degenerateSlider⟩ from rfl,
      osuObjectNew_slider_travel, degenerate_endState]
    norm_num
  refine ⟨heq, ?_⟩
  rintro ⟨tr, htr, hpos⟩
  rw [heq] at htr
  rw [Option.some_inj.mp htr] at hpos
  exact lt_irrefl tr hpos

/-- Claim C4 (amended): the constructed sample's travel distance is `None`
exactly for duration-only objects (spinner / hold-without-path), `Some 0.0`
for a circle, and `Some d` with `d ≥ 0` (not necessarily `d > 0`) for every
slider, given a nonnegative scaling factor. -/
theorem C4_travel_classification (m : BeatmapModel) (radius scaling : ℚ)
    (h : HitObject) (attrs : OsuDifficultyAttributes) (hscal : 0 ≤ scaling) :
    (((osuObjectNew m radius scaling h attrs).1).travel_dist = none ↔
      h.kind = .spinner ∨ h.kind = .hold)
    ∧ (h.kind = .circle →
        ((osuObjectNew m radius scaling h attrs).1).travel_dist = some 0)
    ∧ (∀ d : SliderData, h.kind = .slider d →
        ∃ tr : ℝ, ((osuObjectNew m radius scaling h attrs).1).travel_dist = some tr
          ∧ 0 ≤ tr) := by
  rcases h with ⟨t, p, k⟩
  cases k with
  | circle =>
    refine ⟨by simp [osuObjectNew], fun _ => rfl, fun d hd => by simp at hd⟩
  | slider d =>
    refine ⟨by simp [osuObjectNew], fun hc => by simp at hc, fun d2 hd => ?_⟩
    have hd2 : d2 = d := by
      injection hd with h1
      exact h1.symm
    subst hd2
    refine ⟨(sliderEndState m radius t p d2).2 * (scaling : ℝ),
      osuObjectNew_slider_travel m radius scaling t p d2 attrs, ?_⟩
    have h0 : (0 : ℝ) ≤ (sliderEndState m radius t p d2).2 := by
      have := foldlVertex_travel_mono (radius * 3) p d2.curvePos t (spanDuration m d2)
        (vertexTimes t m d2) (p, 0)
      simpa [sliderEndState] using this
    exact mul_nonneg h0 (by exact_mod_cast hscal)
  | spinner =>
    refine ⟨by simp [osuObjectNew], fun hc => by simp at hc, fun d hd => by simp at hd⟩
  | hold =>
    refine ⟨by simp [osuObjectNew], fun hc => by simp at hc, fun d hd => by simp at hd⟩

/-- Witness for `C4_travel_classification` at the degenerate slider with
scaling factor 1. -/
theorem C4_travel_classification_witness :
    (0 : ℚ) ≤ 1
    ∧ ((((osuObjectNew ctxMap 10 1 degHit ({} : OsuDifficultyAttributes)).1).travel_dist =
          none ↔ degHit.kind = .spinner ∨ degHit.kind = .hold)
      ∧ (degHit.kind = .circle →
          ((osuObjectNew ctxMap 10 1 degHit ({} : OsuDifficultyAttributes)).1).travel_dist =
            some 0)
      ∧ (∀ d : SliderData, degHit.kind = .slider d →
          ∃ tr : ℝ,
            ((osuObjectNew ctxMap 10 1 degHit
                ({} : OsuDifficultyAttributes)).1).travel_dist = some tr ∧ 0 ≤ tr)) :=
  ⟨by norm_num,
   C4_travel_classification ctxMap 10 1 degHit ({} : OsuDifficultyAttributes) (by norm_num)⟩

/-! ### Claim C5 -/

lemma mid_vertexTimes : vertexTimes 0 ctxMap midSliderD = [20] := by
  norm_num [vertexTimes, clampedTickDist, tickDistRaw, scoringDist, sliderLen, tailTime,
    spanDuration, totalDuration, spanCount, sliderVel, minDistFromEnd, firstSpanTickTimes,
    firstSpanTickDists, tickDistsAux, tickFuel, spanVertexTimes, ctxMap, midSliderD,
    BASE_SCORING_DISTANCE, LEGACY_LAST_TICK_OFFSET]

lemma mid_progress : progressAt 0 (spanDuration ctxMap midSliderD) 20 = 1 / 2 := by
  norm_num [progressAt, rustRem, ratTrunc, spanDuration, totalDuration, spanCount, sliderVel,
    scoringDist, ctxMap, midSliderD, BASE_SCORING_DISTANCE]

lemma mid_endState : sliderEndState ctxMap 10 0 origin midSliderD = (origin, 0) := by
  rw [sliderEndState, mid_vertexTimes, List.foldl_cons, List.foldl_nil]
  apply vertexStep_of_le
  show posLength (origin + midSliderD.curvePos (progressAt 0 (spanDuration ctxMap midSliderD) 20)
      - origin) ≤ ((10 * 3 : ℚ) : ℝ)
  rw [add_sub_cancel_left, mid_progress]
  show posLength (((40 * (1 / 2 : ℚ) : ℚ) : ℝ), 0) ≤ _
  rw [posLength_axis]
  push_cast
  norm_num

lemma far_vertexTimes : vertexTimes 0 ctxMap farSliderD = [44] := by
  norm_num [vertexTimes, clampedTickDist, tickDistRaw, scoringDist, sliderLen, tailTime,
    spanDuration, totalDuration, spanCount, sliderVel, minDistFromEnd, firstSpanTickTimes,
    firstSpanTickDists, tickDistsAux, tickFuel, spanVertexTimes, ctxMap, farSliderD,
    BASE_SCORING_DISTANCE, LEGACY_LAST_TICK_OFFSET]

lemma far_progress : progressAt 0 (spanDuration ctxMap farSliderD) 44 = 11 / 20 := by
  norm_num [progressAt, rustRem, ratTrunc, spanDuration, totalDuration, spanCount, sliderVel,
    scoringDist, ctxMap, farSliderD, BASE_SCORING_DISTANCE]

lemma far_tail_beyond_follow_radius :
    ∃ tm ∈ vertexTimes 0 ctxMap farSliderD,
      ((10 * 3 : ℚ) : ℝ) <
        posLength (farSliderD.curvePos (progressAt 0 (spanDuration ctxMap farSliderD) tm)) := by
  refine ⟨44, by rw [far_vertexTimes]; exact List.mem_singleton.mpr rfl, ?_⟩
  rw [far_progress]
  show _ < posLength (((80 * (11 / 20 : ℚ) : ℚ) : ℝ), 0)
  rw [posLength_axis]
  push_cast
  norm_num

lemma near_path_within_follow_radius :
    ∀ q : ℚ, posLength (nearSliderD.curvePos q) ≤ ((10 * 3 : ℚ) : ℝ) := by
  intro q
  show posLength (((20 * max 0 (min 1 q) : ℚ) : ℝ), 0) ≤ _
  have h0' : (0 : ℝ) ≤ max 0 (min 1 (q : ℝ)) := le_max_left _ _
  have h1' : max 0 (min 1 (q : ℝ)) ≤ 1 := max_le (by norm_num) (min_le_left _ _)
  rw [posLength_axis]
  push_cast
  rw [abs_of_nonneg (by linarith)]
  linarith

/-- Claim C5, counterexample: a slider whose path length (40) exceeds the
follow-circle radius (`3 * radius = 30`) can still yield zero accumulated
travel: its only sampled vertex, the tail at progress `1/2`, lies within the
follow circle of the start, so `travel_dist = Some 0.0`, refuting
"path length exceeds the follow-circle radius implies travel_dist > 0". -/
theorem C5_counterexample :
    ((10 : ℚ) * 3) < midSliderD.curveDist
    ∧ ((osuObjectNew ctxMap 10 1 ⟨0, origin, .slider midSliderD⟩
        ({} : OsuDifficultyAttributes)).1).travel_dist = some 0 := by
  constructor
  · norm_num [midSliderD]
  · rw [osuObjectNew_slider_travel, mid_endState]
    norm_num

/-- Claim C5 (amended): a sampled vertex advances the running end position
and accumulates travel only when the new curve position lies farther than
the follow-circle radius (3 × object radius) from the current end position,
and only the excess beyond that radius is accumulated; consequently a hold
object one of whose sampled vertex positions lies beyond the follow-circle
radius of its start yields `travel_dist > 0` (path length alone does not
suffice), and one whose entire path stays within the follow-circle radius
of its start yields `travel_dist = 0`. -/
theorem C5_follow_circle_accumulation (m : BeatmapModel) (radius scaling t : ℚ)
    (p : Pos2) (d : SliderData) (attrs : OsuDifficultyAttributes)
    (hscal : 0 < scaling) :
    (∀ (st : Pos2 × ℝ) (tm : ℚ),
      (posLength (p + d.curvePos (progressAt t (spanDuration m d) tm) - st.1) ≤
          ((radius * 3 : ℚ) : ℝ) →
        vertexStep (radius * 3) p d.curvePos t (spanDuration m d) st tm = st)
      ∧ (((radius * 3 : ℚ) : ℝ) <
            posLength (p + d.curvePos (progressAt t (spanDuration m d) tm) - st.1) →
          (vertexStep (radius * 3) p d.curvePos t (spanDuration m d) st tm).2 =
            st.2 + (posLength (p + d.curvePos (progressAt t (spanDuration m d) tm) - st.1)
              - ((radius * 3 : ℚ) : ℝ))))
    ∧ ((∃ tm ∈ vertexTimes t m d,
          ((radius * 3 : ℚ) : ℝ) <
            posLength (d.curvePos (progressAt t (spanDuration m d) tm))) →
        ∃ tr : ℝ,
          ((osuObjectNew m radius scaling ⟨t, p, .slider d⟩ attrs).1).travel_dist =
            some tr ∧ 0 < tr)
    ∧ ((∀ q : ℚ, posLength (d.curvePos q) ≤ ((radius * 3 : ℚ) : ℝ)) →
        ((osuObjectNew m radius scaling ⟨t, p, .slider d⟩ attrs).1).travel_dist =
          some 0) := by
  refine ⟨?_, ?_, ?_⟩
  · intro st tm
    refine ⟨vertexStep_of_le (radius * 3) p d.curvePos t (spanDuration m d) st tm,
      fun hlt => ?_⟩
    rw [vertexStep_of_lt (radius * 3) p d.curvePos t (spanDuration m d) st tm hlt]
  · intro hex
    refine ⟨(sliderEndState m radius t p d).2 * (scaling : ℝ),
      osuObjectNew_slider_travel m radius scaling t p d attrs, ?_⟩
    have hpos := foldlVertex_pos (radius * 3) p d.curvePos t (spanDuration m d)
      (vertexTimes t m d) hex
    have h2 : 0 < (sliderEndState m radius t p d).2 := hpos
    exact mul_pos h2 (by exact_mod_cast hscal)
  · intro hall
    rw [osuObjectNew_slider_travel]
    have h2 : sliderEndState m radius t p d = (p, 0) :=
      foldlVertex_within (radius * 3) p d.curvePos t (spanDuration m d) hall
        (vertexTimes t m d)
    rw [h2]
    norm_num

/-- Witness for `C5_follow_circle_accumulation`: the straight 80-pixel
slider's tail vertex lies beyond the follow circle and yields positive
travel, while the 20-pixel slider's whole path stays inside and yields zero
travel. -/
theorem C5_follow_circle_accumulation_witness :
    (0 : ℚ) < 1
    ∧ (∃ tr : ℝ,
        ((osuObjectNew ctxMap 10 1 ⟨0, origin, .slider farSliderD⟩
            ({} : OsuDifficultyAttributes)).1).travel_dist = some tr ∧ 0 < tr)
    ∧ ((osuObjectNew ctxMap 10 1 ⟨0, origin, .slider nearSliderD⟩
        ({} : OsuDifficultyAttributes)).1).travel_dist = some 0 := by
  refine ⟨by norm_num, ?_, ?_⟩
  · exact (C5_follow_circle_accumulation ctxMap 10 1 0 origin farSliderD
      ({} : OsuDifficultyAttributes) (by norm_num)).2.1 far_tail_beyond_follow_radius
  · exact (C5_follow_circle_accumulation ctxMap 10 1 0 origin nearSliderD
      ({} : OsuDifficultyAttributes) (by norm_num)).2.2 near_path_within_follow_radius

end RosuOlder
